import Mathlib

/-!
Shallow embedding of the `xinxindu/logger` package (src/file.go, src/logger.go)
and proofs about its specification.

Conventions used throughout:
* Go `int64` / `int` values are modelled as `Int` (no overflow occurs for the
  epoch-second and count ranges the program works with); Go's `%` on integers
  truncates toward zero and is modelled by `Int.tmod`.
* Wall-clock time is an explicit parameter (`time.Now().Unix()` becomes an
  argument `now : Int`); `time.Now().Format` / `time.Unix(ts,0).Format` are
  modelled by an explicit epoch-to-civil-date conversion, rendered in a fixed
  (UTC) zone.
* File-system effects are made explicit: a directory listing is a list of
  entries, an open file handle is a `Nat` identifier, deletion returns the
  list of removed names.  Fallible operations return `Option` (`none` models
  a Go runtime panic, e.g. an out-of-range slice).
* The goroutines of `InitLogger` are modelled as a small-step transition
  system (`SysStep`) whose interleavings over-approximate the Go scheduler,
  and the body of the writer goroutine is additionally modelled as a pure
  step function (`writerStep`) that records the order of its side effects as
  a list of events.
-/

/- ------------------------------------------------------------------ -/
/- file.go: levels and their names                                     -/
/- ------------------------------------------------------------------ -/

/-- Embedding of `Level.String` (file.go lines 13-25).  `Level` is a Go `int`;
the switch maps 0,1,2,3 to names and falls through to `""` otherwise. -/
def levelString (l : Int) : String :=
  if l = 0 then "DEBUG"
  else if l = 1 then "INFO"
  else if l = 2 then "WARN"
  else if l = 3 then "ERROR"
  else ""

/-- The four declared level constants (file.go lines 6-11): `LevelDebug = 0`,
`LevelInfo = 1`, `LevelWarning = 2`, `LevelError = 3`. -/
def LevelDebug : Int := 0

def LevelInfo : Int := 1

def LevelWarning : Int := 2

def LevelError : Int := 3

/- ------------------------------------------------------------------ -/
/- logger.go: the Record value and its rendering                       -/
/- ------------------------------------------------------------------ -/

/-- Embedding of the `Record` struct (logger.go lines 34-40). -/
structure Record where
  RLevel : Int
  RTime : String
  RMsg : String
  LineNum : Int
  File : String
  deriving DecidableEq

/-- Embedding of Go's `filepath.Base` (Unix rules): empty path gives ".",
trailing slashes are stripped, the last path element is returned, and an
all-slash path gives "/". -/
def filepathBase (p : String) : String :=
  if p = "" then "."
  else
    let rev := p.toList.reverse.dropWhile fun c => c == '/'
    if rev = [] then "/"
    else String.mk ((rev.takeWhile fun c => c != '/').reverse)

/-- Embedding of `Record.String` (logger.go lines 321-323):
`fmt.Sprintf("[%s] %s %s %s.%d\n", r.RTime, r.RLevel.String(), r.RMsg,
filepath.Base(r.File), r.LineNum)`. -/
def Record.render (r : Record) : String :=
  "[" ++ r.RTime ++ "] " ++ levelString r.RLevel ++ " " ++ r.RMsg ++ " "
    ++ filepathBase r.File ++ "." ++ toString r.LineNum ++ "\n"

/- ------------------------------------------------------------------ -/
/- logger.go: granularity, intervals, expiry arithmetic                -/
/- ------------------------------------------------------------------ -/

/-- Embedding of `IsWhenValid` (logger.go lines 311-318). -/
def IsWhenValid (when : String) : Bool :=
  when = "M" || when = "H" || when = "D" || when = "W"

/-- Embedding of `GetExpiryInterval` (logger.go lines 157-170):
60, 60*60, 60*60*24, 60*60*24*7 seconds, and `math.MaxInt64` for any other
token. -/
def GetExpiryInterval (when : String) : Int :=
  if when = "M" then 60
  else if when = "H" then 3600
  else if when = "D" then 86400
  else if when = "W" then 604800
  else 9223372036854775807

/-- Go's `%` on integers truncates toward zero, modelled by `Int.tmod`.  On
the non-negative epoch timestamps and positive intervals used by the logger
it agrees with Euclidean `%`. -/
def goMod (a b : Int) : Int := Int.tmod a b

/-- Embedding of `UpdateExpiryTs` (logger.go lines 286-289):
`l.ExpiryTs = t - t % l.WhenInterval + l.WhenInterval` where
`t = time.Now().Unix()`; here `now` is that wall-clock value. -/
def UpdateExpiryTs (now interval : Int) : Int :=
  now - goMod now interval + interval

/-- Embedding of `IsRotate` (logger.go lines 172-175): rotation is due when
`time.Now().Unix() > l.ExpiryTs` (strictly greater). -/
def IsRotate (t expiryTs : Int) : Bool :=
  decide (t > expiryTs)

/- ------------------------------------------------------------------ -/
/- Rendering of expiry instants (time.Unix(ts,0).Format)               -/
/- ------------------------------------------------------------------ -/

/-- Civil date from a count of days since 1970-01-01 (proleptic Gregorian,
the standard era-based algorithm), giving `(year, month, day)`.  This is the
calendar arithmetic behind Go's `time.Unix(ts,0).Format`, modelled in a
fixed (UTC) zone. -/
def civilFromDays (z : Nat) : Nat × Nat × Nat :=
  let days := z + 719468
  let era := days / 146097
  let doe := days % 146097
  let yoe := (doe - doe / 1460 + doe / 36524 - doe / 146096) / 365
  let y := yoe + era * 400
  let doy := doe - (365 * yoe + yoe / 4 - yoe / 100)
  let mp := (5 * doy + 2) / 153
  let d := doy - (153 * mp + 2) / 5 + 1
  let m := if mp < 10 then mp + 3 else mp - 9
  (if m ≤ 2 then y + 1 else y, m, d)

/-- Two-digit zero padding, as produced by Go's `01`, `02`, `15`, `04`
format verbs. -/
def pad2 (n : Nat) : String :=
  if n < 10 then "0" ++ toString n else toString n

/-- Rendering of Go's layout `"2006-01-02"` for the instant `ts` (epoch
seconds): zero-padded `YYYY-MM-DD`.  Modelled for the non-negative
timestamps the logger computes. -/
def formatDaySuffix (ts : Int) : String :=
  let secs := ts.toNat
  let ymd := civilFromDays (secs / 86400)
  toString ymd.1 ++ "-" ++ pad2 ymd.2.1 ++ "-" ++ pad2 ymd.2.2

/-- Rendering of Go's layout `"2006-01-02_15"`: the day part followed by the
zero-padded 24h hour. -/
def formatHourSuffix (ts : Int) : String :=
  formatDaySuffix ts ++ "_" ++ pad2 (ts.toNat % 86400 / 3600)

/-- Rendering of Go's layout `"2006-01-02_15-04"`: the hour part followed by
the zero-padded minute. -/
def formatMinuteSuffix (ts : Int) : String :=
  formatHourSuffix ts ++ "-" ++ pad2 (ts.toNat % 3600 / 60)

/- ------------------------------------------------------------------ -/
/- The Logger struct and the pure accessors on it                      -/
/- ------------------------------------------------------------------ -/

/-- Embedding of the `Logger` struct fields that carry pure state
(logger.go lines 17-32).  `RecordCh` is the FIFO content of the buffered
record channel; the `os.File` handle, the control channels and the compiled
regexp are modelled separately where needed. -/
structure Logger where
  RecordCh : List Record
  FileName : String
  FileDir : String
  Level : Int
  When : String
  WhenInterval : Int
  Ts : Int
  ExpiryTs : Int
  BackupCount : Int
  deriving DecidableEq

/-- Embedding of `GetFileSuffixName` (logger.go lines 291-301): switch on
`l.When` rendering `l.ExpiryTs`; any other token (in particular `"W"`)
returns the empty string. -/
def GetFileSuffixName (l : Logger) : String :=
  if l.When = "M" then formatMinuteSuffix l.ExpiryTs
  else if l.When = "H" then formatHourSuffix l.ExpiryTs
  else if l.When = "D" then formatDaySuffix l.ExpiryTs
  else ""

/-- Embedding of `GetAbsoluteFilePath` (logger.go lines 303-305):
`fmt.Sprintf("%s/%s_%s.log", l.FileDir, l.FileName, l.GetFileSuffixName())`. -/
def GetAbsoluteFilePath (l : Logger) : String :=
  l.FileDir ++ "/" ++ l.FileName ++ "_" ++ GetFileSuffixName l ++ ".log"

/- ------------------------------------------------------------------ -/
/- The enqueue entry points (Debugf / Infof / Warnf / Errorf)          -/
/- ------------------------------------------------------------------ -/

/-- Embedding of `Debugf` (logger.go lines 177-191): build a `Record` with
`RLevel = LevelDebug`, the current wall-clock string, the formatted message
and the caller location, and send it on `RecordCh`.  The clock value and the
already-formatted message are explicit parameters (they come from the clock
and formatter collaborators). -/
def Logger.Debugf (l : Logger) (now msg callerFile : String) (callerLine : Int) : Logger :=
  { l with RecordCh := l.RecordCh ++
      [{ RLevel := LevelDebug, RTime := now, RMsg := msg,
         LineNum := callerLine, File := callerFile }] }

/-- Embedding of `Infof` (logger.go lines 193-207). -/
def Logger.Infof (l : Logger) (now msg callerFile : String) (callerLine : Int) : Logger :=
  { l with RecordCh := l.RecordCh ++
      [{ RLevel := LevelInfo, RTime := now, RMsg := msg,
         LineNum := callerLine, File := callerFile }] }

/-- Embedding of `Warnf` (logger.go lines 209-223). -/
def Logger.Warnf (l : Logger) (now msg callerFile : String) (callerLine : Int) : Logger :=
  { l with RecordCh := l.RecordCh ++
      [{ RLevel := LevelWarning, RTime := now, RMsg := msg,
         LineNum := callerLine, File := callerFile }] }

/-- Embedding of `Errorf` (logger.go lines 225-239). -/
def Logger.Errorf (l : Logger) (now msg callerFile : String) (callerLine : Int) : Logger :=
  { l with RecordCh := l.RecordCh ++
      [{ RLevel := LevelError, RTime := now, RMsg := msg,
         LineNum := callerLine, File := callerFile }] }

/- ------------------------------------------------------------------ -/
/- The filename regexps of GetRegexp                                   -/
/- ------------------------------------------------------------------ -/

/-- Bytewise lexicographic comparison of character lists.  Go compares
strings byte by byte; on UTF-8 text the codepoint order used here coincides
with the byte order. -/
def strLeAux : List Char → List Char → Bool
  | [], _ => true
  | _ :: _, [] => false
  | a :: as, b :: bs =>
    if a.toNat < b.toNat then true
    else if b.toNat < a.toNat then false
    else strLeAux as bs

/-- Go's `<=` on strings (the order used by `sort.Strings`). -/
def strLe (a b : String) : Bool := strLeAux a.toList b.toList

/-- Matcher for the regexp fragment `\d{4}-\d{2}-\d{2}` against an exact
character list. -/
def isDatePattern (cs : List Char) : Bool :=
  match cs with
  | [y1, y2, y3, y4, s1, m1, m2, s2, d1, d2] =>
      y1.isDigit && y2.isDigit && y3.isDigit && y4.isDigit && s1 == '-'
        && m1.isDigit && m2.isDigit && s2 == '-' && d1.isDigit && d2.isDigit
  | _ => false

/-- Matcher for the regexp fragment `\d{4}-\d{2}-\d{2}_\d{2}`. -/
def isDateHourPattern (cs : List Char) : Bool :=
  isDatePattern (cs.take 10) &&
    match cs.drop 10 with
    | [u, h1, h2] => u == '_' && h1.isDigit && h2.isDigit
    | _ => false

/-- Matcher for the regexp fragment `\d{4}-\d{2}-\d{2}_\d{2}-\d{2}`. -/
def isDateHourMinutePattern (cs : List Char) : Bool :=
  isDateHourPattern (cs.take 13) &&
    match cs.drop 13 with
    | [s, m1, m2] => s == '-' && m1.isDigit && m2.isDigit
    | _ => false

/-- Matcher for the anchored regexp `^<base>_<mid>\.log$` where `mid` is
checked by `midPattern`.  This models the regexps `GetRegexp` compiles
(logger.go lines 325-351) for a base name free of regexp metacharacters. -/
def matchLogName (midPattern : List Char → Bool) (base fname : String) : Bool :=
  let pre := (base ++ "_").toList
  let cs := fname.toList
  pre.isPrefixOf cs &&
    (let rest := cs.drop pre.length
     ".log".toList.isSuffixOf rest && midPattern (rest.take (rest.length - 4)))

/-- Embedding of `GetRegexp` (logger.go lines 325-351): granularities `"M"`,
`"H"`, `"D"` produce a matcher and a nil error; every other token — in
particular the valid token `"W"` — falls through to
`(nil, fmt.Errorf("logger when is invalid"))`, modelled by `none`. -/
def GetRegexp (when base : String) : Option (String → Bool) :=
  if when = "M" then some (matchLogName isDateHourMinutePattern base)
  else if when = "H" then some (matchLogName isDateHourPattern base)
  else if when = "D" then some (matchLogName isDatePattern base)
  else none

/- ------------------------------------------------------------------ -/
/- InitLogger control flow                                             -/
/- ------------------------------------------------------------------ -/

/-- The observable ways `InitLogger` can end. -/
inductive InitOutcome where
  | ok
  | errReturn
  | processExit
  deriving DecidableEq

/-- Embedding of the control flow of `InitLogger` (logger.go lines 42-121):
an invalid `when` returns an error before any side effect; a `GetRegexp`
error leads to `logger.ExitLogger()`, which calls `os.Exit(0)`; afterwards
`InitRotate` is called, which always returns a nil error (see
`rotationIteration` below), so the remaining error branch is dead and the
logger handle is returned. -/
def InitLoggerOutcome (when base : String) : InitOutcome :=
  if !IsWhenValid when then InitOutcome.errReturn
  else if (GetRegexp when base).isNone then InitOutcome.processExit
  else InitOutcome.ok

/- ------------------------------------------------------------------ -/
/- deleteOldFiles: the retention sweep                                 -/
/- ------------------------------------------------------------------ -/

/-- A directory entry as seen by `ioutil.ReadDir`: a name and whether it is
a directory. -/
structure DirEntry where
  name : String
  isDir : Bool
  deriving DecidableEq

/-- The filenames `deleteOldFiles` collects (logger.go lines 131-142): the
non-directory entries whose name matchp the logger's regexp, in listing
order. -/
def matchedFiles (entries : List DirEntry) (matchp : String → Bool) : List String :=
  (entries.filter fun e => !e.isDir && matchp e.name).map DirEntry.name

/-- The collected filenames after `sort.Strings` (logger.go line 144),
sorted in Go's bytewise lexicographic order.  The order is total and
antisymmetric, so the sorted permutation is unique and any correct sorting
algorithm models `sort.Strings`; insertion sort is used because it reduces
in the kernel. -/
def sortedMatchList (entries : List DirEntry) (matchp : String → Bool) : List String :=
  List.insertionSort (fun a b => strLe a b = true) (matchedFiles entries matchp)

/-- Embedding of the deletion step of `deleteOldFiles` (logger.go lines
146-153): `deleteCount := len(matchFileList) - l.BackupCount`; if positive,
the slice `matchFileList[:deleteCount]` is removed.  The result is the list
of removed names; `none` models the Go slice-bounds panic that
`matchFileList[:deleteCount]` raises when `deleteCount` exceeds the list
length (possible only for a negative `BackupCount`). -/
def deleteOldFiles (entries : List DirEntry) (matchp : String → Bool)
    (backupCount : Int) : Option (List String) :=
  let matchFileList := sortedMatchList entries matchp
  let deleteCount : Int := (matchFileList.length : Int) - backupCount
  if 0 < deleteCount then
    if deleteCount ≤ (matchFileList.length : Int) then
      some (matchFileList.take deleteCount.toNat)
    else none
  else some []

/- ------------------------------------------------------------------ -/
/- The writer goroutine body as an event-producing step function       -/
/- ------------------------------------------------------------------ -/

/-- The side effects the writer goroutine body can perform, in program
order. -/
inductive WriterEvent where
  | sweep
  | closeOld
  | openNew
  | write
  deriving DecidableEq

/-- The state the writer goroutine reads and writes: the rotation state,
the identity of the current file handle, the set of OS handles that are
open, and the records written so far.  Handles are numbered; opening a file
allocates the next number. -/
structure WriterState where
  ExpiryTs : Int
  WhenInterval : Int
  FileHandle : Nat
  openHandles : List Nat
  nextHandle : Nat
  written : List Record
  deriving DecidableEq

/-- Embedding of one iteration of the writer goroutine body (logger.go
lines 97-117) processing record `r` at wall-clock time `t`: if `IsRotate`
holds, `deleteOldFiles` runs (event `sweep`), then `InitRotate` recomputes
the expiry via `UpdateExpiryTs` and opens a new handle (event `openNew`),
storing it in `l.File` without closing the previous handle; finally the
record is appended (event `write`).  The event list records the order of
these effects. -/
def writerStep (s : WriterState) (t : Int) (r : Record) : WriterState × List WriterEvent :=
  if IsRotate t s.ExpiryTs then
    let s1 : WriterState :=
      { s with ExpiryTs := UpdateExpiryTs t s.WhenInterval,
               FileHandle := s.nextHandle,
               openHandles := s.openHandles ++ [s.nextHandle],
               nextHandle := s.nextHandle + 1 }
    ({ s1 with written := s1.written ++ [r] },
     [WriterEvent.sweep, WriterEvent.openNew, WriterEvent.write])
  else
    ({ s with written := s.written ++ [r] }, [WriterEvent.write])

/- ------------------------------------------------------------------ -/
/- Control flow under I/O failures                                     -/
/- ------------------------------------------------------------------ -/

/-- Outcome of one rotating writer-loop iteration under I/O failures. -/
structure IterOutcome where
  exited : Bool
  handleAfter : Option Nat
  recordWritten : Bool
  deriving DecidableEq

/-- Control flow of one rotating writer-loop iteration (logger.go lines
99-116) with explicit failure flags.  A `ReadDir` failure inside
`deleteOldFiles` prints and calls `ExitLogger` (line 128).  `InitRotate`
(lines 242-254) prints an `os.OpenFile` error but swallows it and returns a
nil error, storing the possibly-nil handle in `l.File`; consequently the
caller's `InitRotate` error branch is dead.  The subsequent
`fmt.Fprintf(logger.File, ...)` fails when the handle is nil or when the
device write fails, and on failure prints and calls `ExitLogger`
(lines 111-116). -/
def rotationIteration (handle : Nat) (listFails openFails writeFails : Bool) : IterOutcome :=
  if listFails then
    { exited := true, handleAfter := some handle, recordWritten := false }
  else
    let newHandle : Option Nat := if openFails then none else some (handle + 1)
    let writeErr : Bool := newHandle.isNone || writeFails
    if writeErr then
      { exited := true, handleAfter := newHandle, recordWritten := false }
    else
      { exited := false, handleAfter := newHandle, recordWritten := true }

/-- Outcome of a run of `deleteOldFiles` with explicit failure inputs. -/
structure CleanupOutcome where
  exited : Bool
  removed : List String
  deriving DecidableEq

/-- Embedding of the failure handling of `deleteOldFiles` (logger.go lines
123-154): a `ReadDir` error (`listing = none`) prints and calls
`ExitLogger`; each `os.Remove` error is discarded — the loop neither logs it
nor changes control flow, so a failed removal (`removeFails`) only means the
file stays on disk.  `none` models the slice-bounds panic of
`deleteOldFiles`. -/
def deleteOldFilesRun (listing : Option (List DirEntry)) (matchp : String → Bool)
    (backupCount : Int) (removeFails : String → Bool) : Option CleanupOutcome :=
  match listing with
  | none => some { exited := true, removed := [] }
  | some entries =>
    match deleteOldFiles entries matchp backupCount with
    | none => none
    | some del => some { exited := false, removed := del.filter fun v => !removeFails v }

/- ------------------------------------------------------------------ -/
/- Shutdown: Close / ExitLogger and the goroutine interleavings        -/
/- ------------------------------------------------------------------ -/

/-- Global state of the logger process for the shutdown analysis: the
queued records (`RecordCh` contents), the records written to disk, whether
the file handle is open, whether the exit signal has been sent on `ExitCh`,
and whether `os.Exit` has run. -/
structure SysState where
  queue : List Record
  written : List Record
  fileOpen : Bool
  exitSignaled : Bool
  exited : Bool
  deriving DecidableEq

/-- Embedding of `Close` (logger.go lines 307-309): send on `ExitCh` and
return immediately. -/
def Close (s : SysState) : SysState :=
  { s with exitSignaled := true }

/-- Embedding of `ExitLogger` (logger.go lines 272-284): close the file
handle, close the three channels, print a final line and call
`os.Exit(0)`.  The queued records are not consulted: the queue is left
exactly as it was. -/
def ExitLogger (s : SysState) : SysState :=
  { s with fileOpen := false, exited := true }

/-- Interleaving semantics of the goroutines of `InitLogger` around
shutdown: a producer may enqueue, the writer goroutine may consume and
write the head record, `Close` may signal exit, and the exit-monitoring
goroutine (logger.go lines 89-93) may run `ExitLogger` any time after the
signal.  After `os.Exit` nothing steps. -/
inductive SysStep : SysState → SysState → Prop where
  | enqueue (s : SysState) (r : Record) :
      s.exited = false → SysStep s { s with queue := s.queue ++ [r] }
  | writeOne (s : SysState) (r : Record) (rest : List Record) :
      s.exited = false → s.fileOpen = true → s.queue = r :: rest →
      SysStep s { s with queue := rest, written := s.written ++ [r] }
  | closeCall (s : SysState) :
      s.exited = false → SysStep s (Close s)
  | exitRun (s : SysState) :
      s.exited = false → s.exitSignaled = true → SysStep s (ExitLogger s)

/-- A record used to instantiate the shutdown and rotation scenarios. -/
def rEx : Record :=
  { RLevel := 1, RTime := "2024-01-01 00:00:00", RMsg := "hello",
    LineNum := 10, File := "main.go" }

/-- Concrete writer state used to instantiate the rotation scenarios: an
active window expiring at epoch second 60 on minute granularity, handle 0
open. -/
def sRot : WriterState :=
  { ExpiryTs := 60, WhenInterval := 60, FileHandle := 0, openHandles := [0],
    nextHandle := 1, written := [] }

/-- Concrete directory listing used to instantiate the retention sweep:
three matching day files, one non-matching file, and one directory whose
name matches the pattern. -/
def entriesEx : List DirEntry :=
  [ { name := "app_2023-01-03.log", isDir := false },
    { name := "app_2023-01-01.log", isDir := false },
    { name := "notes.txt", isDir := false },
    { name := "app_2023-01-02.log", isDir := false },
    { name := "app_2023-01-04.log", isDir := true } ]

/-- Initial state for the shutdown scenario: empty queue, nothing written,
file open, no signals. -/
def s0Sys : SysState :=
  { queue := [], written := [], fileOpen := true, exitSignaled := false,
    exited := false }

/-- State after enqueueing `rEx` in the shutdown scenario. -/
def s1Sys : SysState :=
  { queue := [rEx], written := [], fileOpen := true, exitSignaled := false,
    exited := false }

/-- State after `Close` has signaled exit in the shutdown scenario. -/
def s2Sys : SysState :=
  { queue := [rEx], written := [], fileOpen := true, exitSignaled := true,
    exited := false }

/-- Final state of the shutdown scenario: the process has exited with `rEx`
still queued and never written. -/
def sDropped : SysState :=
  { queue := [rEx], written := [], fileOpen := false, exitSignaled := true,
    exited := true }

/-- Concrete logger used to instantiate the file-naming claims: day
granularity with expiry 1704067200 = 2024-01-01 00:00:00 UTC. -/
def lD : Logger :=
  { RecordCh := [], FileName := "app", FileDir := "/tmp/logs", Level := 1,
    When := "D", WhenInterval := 86400, Ts := 0, ExpiryTs := 1704067200,
    BackupCount := 2 }

/- ================================================================== -/
/- Theorems                                                            -/
/- ================================================================== -/

/-- Transitivity of the bytewise string order. -/
theorem strLeAux_trans :
    ∀ a b c : List Char, strLeAux a b = true → strLeAux b c = true →
      strLeAux a c = true := by
  intro a
  induction a with
  | nil => intro b c _ _; rfl
  | cons x xs ih =>
    intro b c h1 h2
    cases b with
    | nil => simp [strLeAux] at h1
    | cons y ys =>
      cases c with
      | nil => simp [strLeAux] at h2
      | cons z zs =>
        simp only [strLeAux] at h1 h2 ⊢
        split_ifs at h1 h2 ⊢ <;>
          first
            | rfl
            | exact ih ys zs h1 h2
            | (exfalso; omega)

/-- Totality of the bytewise string order. -/
theorem strLeAux_total :
    ∀ a b : List Char, (strLeAux a b || strLeAux b a) = true := by
  intro a
  induction a with
  | nil => intro b; rfl
  | cons x xs ih =>
    intro b
    cases b with
    | nil => rfl
    | cons y ys =>
      simp only [strLeAux]
      split_ifs <;> first | rfl | exact ih ys

/-- The list `sort.Strings` produces is pairwise ordered. -/
theorem sortedMatchList_pairwise (entries : List DirEntry) (matchp : String → Bool) :
    List.Pairwise (fun a b => strLe a b = true) (sortedMatchList entries matchp) :=
  @List.sorted_insertionSort String (fun a b => strLe a b = true) (fun _ _ => inferInstance)
    ⟨fun a b => by simpa using strLeAux_total a.toList b.toList⟩
    ⟨fun a b c => strLeAux_trans a.toList b.toList c.toList⟩
    (matchedFiles entries matchp)

/-- C2: whenever the expiry is recomputed at epoch time `now` with window
interval `I` (positive, at a non-negative wall-clock time, where Go's `%`
agrees with Euclidean `%`), the new expiry equals `now - now % I + I`, it is
a multiple of `I`, it is strictly greater than `now`, it is the smallest
such multiple, and when `now` is itself a multiple the expiry is `now + I`. -/
theorem updateExpiry_smallest_aligned (now I : Int) (h0 : 0 ≤ now) (hI : 0 < I) :
    UpdateExpiryTs now I = now - now % I + I
  ∧ (∃ q : Int, UpdateExpiryTs now I = q * I)
  ∧ now < UpdateExpiryTs now I
  ∧ (∀ m : Int, (∃ q : Int, m = q * I) → now < m → UpdateExpiryTs now I ≤ m)
  ∧ (now % I = 0 → UpdateExpiryTs now I = now + I) := by
  have hmod : goMod now I = now % I := Int.tmod_eq_emod h0 hI.le
  have hdef : UpdateExpiryTs now I = now - now % I + I := by
    unfold UpdateExpiryTs; rw [hmod]
  have hkey : UpdateExpiryTs now I = (now / I + 1) * I := by
    rw [hdef]
    have h := Int.ediv_add_emod now I
    linear_combination -h
  refine ⟨hdef, ⟨now / I + 1, hkey⟩, ?_, ?_, ?_⟩
  · rw [hkey]; exact Int.lt_ediv_add_one_mul_self now hI
  · rintro m ⟨q, rfl⟩ hlt
    rw [hkey]
    have hq : now / I < q := (Int.ediv_lt_iff_lt_mul hI).mpr hlt
    exact mul_le_mul_of_nonneg_right (by omega) hI.le
  · intro hz; rw [hdef, hz]; ring

/-- Witness for C2 at `now = 120`, `I = 60` (an aligned instant): the new
expiry is strictly later and equals `now + I`. -/
theorem updateExpiry_smallest_aligned_witness :
    120 < UpdateExpiryTs 120 60 ∧ UpdateExpiryTs 120 60 = 120 + 60 := by
  constructor
  · exact (updateExpiry_smallest_aligned 120 60 (by norm_num) (by norm_num)).2.2.1
  · exact (updateExpiry_smallest_aligned 120 60 (by norm_num) (by norm_num)).2.2.2.2
      (by decide)

/-- C10: `Level.String` maps 0,1,2,3 to the distinct names DEBUG, INFO,
WARN, ERROR, returns the empty string on every other integer, and every
rendered log line embeds `levelString` of the record's level, which is one
of those five strings. -/
theorem levelString_total_spec :
    levelString LevelDebug = "DEBUG" ∧ levelString LevelInfo = "INFO"
  ∧ levelString LevelWarning = "WARN" ∧ levelString LevelError = "ERROR"
  ∧ List.Nodup ["DEBUG", "INFO", "WARN", "ERROR"]
  ∧ (∀ l : Int, l ≠ 0 → l ≠ 1 → l ≠ 2 → l ≠ 3 → levelString l = "")
  ∧ (∀ r : Record,
      Record.render r
        = "[" ++ r.RTime ++ "] " ++ levelString r.RLevel ++ " " ++ r.RMsg
            ++ " " ++ filepathBase r.File ++ "." ++ toString r.LineNum ++ "\n"
      ∧ levelString r.RLevel ∈ ["DEBUG", "INFO", "WARN", "ERROR", ""]) := by
  refine ⟨rfl, rfl, rfl, rfl, by decide, ?_, ?_⟩
  · intro l h0 h1 h2 h3
    unfold levelString
    rw [if_neg h0, if_neg h1, if_neg h2, if_neg h3]
  · intro r
    refine ⟨rfl, ?_⟩
    unfold levelString
    split_ifs <;> simp

/-- Witness for C10 at the undefined level value 7. -/
theorem levelString_total_spec_witness : levelString 7 = "" :=
  levelString_total_spec.2.2.2.2.2.1 7 (by decide) (by decide) (by decide) (by decide)

/-- C1 counterexample: the claim says a record processed at `t ≥ T` triggers
the sweep and reopen, but `IsRotate` uses a strict comparison
(logger.go line 174), so at `t = T = 60` the record is written on the
existing handle with no sweep and no reopen. -/
theorem rotate_at_boundary_counterexample :
    (60 : Int) ≥ sRot.ExpiryTs
  ∧ (writerStep sRot 60 rEx).2 = [WriterEvent.write]
  ∧ WriterEvent.sweep ∉ (writerStep sRot 60 rEx).2
  ∧ (writerStep sRot 60 rEx).1.FileHandle = sRot.FileHandle
  ∧ (writerStep sRot 60 rEx).1.ExpiryTs = sRot.ExpiryTs := by
  refine ⟨by decide, by decide, by decide, by decide, by decide⟩

/-- C1 (amended): a record processed at `t ≤ T` is written using the
existing handle without rotation; a record processed at `t > T` (strictly)
triggers the retention sweep and the file reopen before that record is
written. -/
theorem writer_rotation_boundary (s : WriterState) (t : Int) (r : Record) :
    (t ≤ s.ExpiryTs →
        (writerStep s t r).2 = [WriterEvent.write]
      ∧ (writerStep s t r).1.FileHandle = s.FileHandle
      ∧ (writerStep s t r).1.ExpiryTs = s.ExpiryTs
      ∧ (writerStep s t r).1.written = s.written ++ [r])
  ∧ (s.ExpiryTs < t →
        (writerStep s t r).2 = [WriterEvent.sweep, WriterEvent.openNew, WriterEvent.write]
      ∧ (writerStep s t r).1.written = s.written ++ [r]
      ∧ (writerStep s t r).1.ExpiryTs = UpdateExpiryTs t s.WhenInterval) := by
  constructor
  · intro h
    have hr : IsRotate t s.ExpiryTs = false := by
      simp only [IsRotate, decide_eq_false_iff_not]; omega
    simp [writerStep, hr]
  · intro h
    have hr : IsRotate t s.ExpiryTs = true := by
      simp only [IsRotate, decide_eq_true_eq]; omega
    simp [writerStep, hr]

/-- Witness for C1 (amended): at `t = 59 < 60` the record is written on the
existing handle; at `t = 61 > 60` sweep and reopen precede the write. -/
theorem writer_rotation_boundary_witness :
    (writerStep sRot 59 rEx).2 = [WriterEvent.write]
  ∧ (writerStep sRot 61 rEx).2
      = [WriterEvent.sweep, WriterEvent.openNew, WriterEvent.write] := by
  constructor
  · exact ((writer_rotation_boundary sRot 59 rEx).1 (by decide)).1
  · exact ((writer_rotation_boundary sRot 61 rEx).2 (by decide)).1

/-- C5 counterexample: the claim says the old file handle is closed before
being replaced on rotation, but the rotation path of the writer loop
(logger.go lines 99-109 calling `InitRotate`, lines 242-254) only assigns
`l.File = file`: at the concrete rotating step the old handle 0 is still
open after the new handle 1 replaces it, and no close ever happens. -/
theorem rotation_leaks_handle_counterexample :
    IsRotate 61 sRot.ExpiryTs = true
  ∧ (writerStep sRot 61 rEx).1.FileHandle = 1
  ∧ sRot.FileHandle ∈ (writerStep sRot 61 rEx).1.openHandles
  ∧ WriterEvent.closeOld ∉ (writerStep sRot 61 rEx).2 := by
  refine ⟨by decide, by decide, by decide, by decide⟩

/-- C5 (amended): on every rotation the retention sweep runs before the new
file handle is opened (the event list is exactly sweep, then open, then
write), but the old handle is not closed before being replaced: it stays
open, i.e. it is leaked. -/
theorem rotation_sweep_before_open_handle_leaked
    (s : WriterState) (t : Int) (r : Record)
    (hrot : IsRotate t s.ExpiryTs = true)
    (hmem : s.FileHandle ∈ s.openHandles) :
    (writerStep s t r).2 = [WriterEvent.sweep, WriterEvent.openNew, WriterEvent.write]
  ∧ s.FileHandle ∈ (writerStep s t r).1.openHandles
  ∧ WriterEvent.closeOld ∉ (writerStep s t r).2 := by
  refine ⟨?_, ?_, ?_⟩
  · simp [writerStep, hrot]
  · simp only [writerStep, hrot, if_true]
    exact List.mem_append.mpr (Or.inl hmem)
  · simp [writerStep, hrot]

/-- Witness for C5 (amended) at the concrete rotating step. -/
theorem rotation_sweep_before_open_handle_leaked_witness :
    (writerStep sRot 61 rEx).2
      = [WriterEvent.sweep, WriterEvent.openNew, WriterEvent.write]
  ∧ sRot.FileHandle ∈ (writerStep sRot 61 rEx).1.openHandles := by
  constructor
  · exact (rotation_sweep_before_open_handle_leaked sRot 61 rEx (by decide) (by decide)).1
  · exact (rotation_sweep_before_open_handle_leaked sRot 61 rEx (by decide) (by decide)).2.1

/-- C3: with `backupCount = k ≥ 0` over a listing whose matching
non-directory entries number `m`: if `m ≤ k` nothing is deleted; if `m > k`
exactly the `m - k` smallest names (in the sorted order) are deleted, `k`
names remain, and every deleted name is lexicographically at most every
remaining name. -/
theorem deleteOldFiles_retention (entries : List DirEntry) (matchp : String → Bool)
    (k : Int) (hk : 0 ≤ k) :
    (((matchedFiles entries matchp).length : Int) ≤ k →
      deleteOldFiles entries matchp k = some [])
  ∧ (k < ((matchedFiles entries matchp).length : Int) →
      deleteOldFiles entries matchp k
        = some ((sortedMatchList entries matchp).take
            (((matchedFiles entries matchp).length : Int) - k).toNat)
      ∧ ((sortedMatchList entries matchp).take
            (((matchedFiles entries matchp).length : Int) - k).toNat).length + k.toNat
          = (matchedFiles entries matchp).length
      ∧ ((sortedMatchList entries matchp).drop
            (((matchedFiles entries matchp).length : Int) - k).toNat).length = k.toNat
      ∧ (∀ d ∈ (sortedMatchList entries matchp).take
            (((matchedFiles entries matchp).length : Int) - k).toNat,
         ∀ w ∈ (sortedMatchList entries matchp).drop
            (((matchedFiles entries matchp).length : Int) - k).toNat,
           strLe d w = true)) := by
  have hlen : (sortedMatchList entries matchp).length
      = (matchedFiles entries matchp).length :=
    (List.perm_insertionSort (fun a b => strLe a b = true)
      (matchedFiles entries matchp)).length_eq
  constructor
  · intro hle
    simp only [deleteOldFiles, hlen]
    rw [if_neg (by omega)]
  · intro hlt
    refine ⟨?_, ?_, ?_, ?_⟩
    · simp only [deleteOldFiles, hlen]
      rw [if_pos (by omega), if_pos (by omega)]
    · rw [List.length_take, hlen]; omega
    · rw [List.length_drop, hlen]; omega
    · intro d hd w hw
      have hp := sortedMatchList_pairwise entries matchp
      have hsplit := List.take_append_drop
        ((((matchedFiles entries matchp).length : Int) - k).toNat)
        (sortedMatchList entries matchp)
      rw [← hsplit] at hp
      exact (List.pairwise_append.mp hp).2.2 d hd w hw

/-- Witness for C3: three matching files, `backupCount = 1`: the two
lexicographically smallest are deleted. -/
theorem deleteOldFiles_retention_witness :
    deleteOldFiles entriesEx (matchLogName isDatePattern "app") 1
      = some ["app_2023-01-01.log", "app_2023-01-02.log"] := by
  have h := ((deleteOldFiles_retention entriesEx (matchLogName isDatePattern "app") 1
      (by decide)).2 (by decide)).1
  exact h.trans (by decide)

/-- C4 counterexample: the claim says every record pending in the queue when
`Close()` is called is written before the handle is closed, but the exit
goroutine runs `ExitLogger` as soon as the signal arrives, and `ExitLogger`
(logger.go lines 272-284) closes the file and exits without draining
`RecordCh`.  The trace enqueue `rEx`, then `Close`, then `ExitLogger`
reaches a final state where the process has exited, the handle is closed,
`rEx` is still queued and nothing was ever written. -/
theorem close_drops_pending_counterexample :
    Relation.ReflTransGen SysStep s0Sys sDropped
  ∧ sDropped.exited = true ∧ sDropped.fileOpen = false
  ∧ sDropped.queue = [rEx] ∧ sDropped.written = [] := by
  refine ⟨?_, rfl, rfl, rfl, rfl⟩
  have h1 : SysStep s0Sys s1Sys := SysStep.enqueue s0Sys rEx rfl
  have h2 : SysStep s1Sys s2Sys := SysStep.closeCall s1Sys rfl
  have h3 : SysStep s2Sys sDropped := SysStep.exitRun s2Sys rfl rfl
  exact Relation.ReflTransGen.head h1
    (Relation.ReflTransGen.head h2
      (Relation.ReflTransGen.head h3 Relation.ReflTransGen.refl))

/-- C4 (amended): `Close()` only sends the exit signal; handling the signal
runs `ExitLogger`, which closes the file handle and terminates the process
while leaving the queue exactly as it was — pending records are not flushed
by the shutdown path and may be dropped. -/
theorem exitLogger_does_not_drain (s : SysState) :
    (Close s).queue = s.queue ∧ (Close s).written = s.written
  ∧ (Close s).exitSignaled = true
  ∧ (ExitLogger s).queue = s.queue ∧ (ExitLogger s).written = s.written
  ∧ (ExitLogger s).fileOpen = false ∧ (ExitLogger s).exited = true :=
  ⟨rfl, rfl, rfl, rfl, rfl, rfl, rfl⟩

/-- C6: `InitLogger` returns a handle with the process still running for
granularities M, H and D, and returns an error (before any side effect) for
every invalid token; but for the valid token W the `GetRegexp` error branch
calls `ExitLogger`, so the process exits — contradicting the claim that all
four valid tokens succeed. -/
theorem initLogger_granularity_outcomes (base : String) :
    InitLoggerOutcome "M" base = InitOutcome.ok
  ∧ InitLoggerOutcome "H" base = InitOutcome.ok
  ∧ InitLoggerOutcome "D" base = InitOutcome.ok
  ∧ InitLoggerOutcome "W" base = InitOutcome.processExit
  ∧ (∀ w : String, IsWhenValid w = false →
      InitLoggerOutcome w base = InitOutcome.errReturn) := by
  refine ⟨rfl, rfl, rfl, rfl, ?_⟩
  intro w hw
  simp [InitLoggerOutcome, hw]

/-- Witness for C6: concrete evaluations, including the invalid token X. -/
theorem initLogger_granularity_outcomes_witness :
    InitLoggerOutcome "X" "app" = InitOutcome.errReturn
  ∧ InitLoggerOutcome "W" "app" = InitOutcome.processExit := by
  constructor
  · exact (initLogger_granularity_outcomes "app").2.2.2.2 "X" (by decide)
  · exact (initLogger_granularity_outcomes "app").2.2.2.1

/-- C7 counterexample: the claim says directory-listing failures during
cleanup are logged and do not abort logging, but a `ReadDir` error makes
`deleteOldFiles` call `ExitLogger` (logger.go line 128): in the model the
iteration with a failed listing exits the process. -/
theorem listing_failure_aborts_counterexample :
    (rotationIteration 0 true false false).exited = true
  ∧ deleteOldFilesRun none (matchLogName isDatePattern "app") 2 (fun _ => false)
      = some { exited := true, removed := [] } :=
  ⟨rfl, rfl⟩

/-- C7 (amended): a failed write aborts the process; a failed open is
swallowed by `InitRotate` (which always returns a nil error) but leaves a
nil handle, so the very next write fails and aborts the process; a failed
directory listing during cleanup also aborts the process; only failed
deletions are ignored (they are not even logged) and never abort. -/
theorem io_failure_policy :
    (∀ h o w, (rotationIteration h true o w).exited = true)
  ∧ (∀ h w, (rotationIteration h false true w).exited = true
      ∧ (rotationIteration h false true w).handleAfter = none)
  ∧ (∀ h o, (rotationIteration h false o true).exited = true)
  ∧ (∀ h, (rotationIteration h false false false).exited = false
      ∧ (rotationIteration h false false false).recordWritten = true)
  ∧ (∀ (entries : List DirEntry) (mp : String → Bool) (k : Int)
       (rf : String → Bool) (res : CleanupOutcome),
       deleteOldFilesRun (some entries) mp k rf = some res → res.exited = false) := by
  refine ⟨fun h o w => rfl, fun h w => ⟨rfl, rfl⟩, ?_, fun h => ⟨rfl, rfl⟩, ?_⟩
  · intro h o; cases o <;> rfl
  · intro entries mp k rf res hres
    simp only [deleteOldFilesRun] at hres
    cases hdel : deleteOldFiles entries mp k with
    | none => rw [hdel] at hres; exact Option.noConfusion hres
    | some del => rw [hdel] at hres; cases hres; rfl

/-- Witness for C7 (amended): a run over the concrete listing in which
every removal fails still reports no exit. -/
theorem io_failure_policy_witness :
    CleanupOutcome.exited { exited := false, removed := ([] : List String) } = false := by
  have h := io_failure_policy.2.2.2.2 entriesEx (matchLogName isDatePattern "app") 1
    (fun _ => true) { exited := false, removed := ([] : List String) } (by decide)
  exact h

/-- C8: the four severity entry points and the write path never consult the
configured minimum level: changing the `Level` field changes nothing about
what is enqueued, every record is appended to the queue unconditionally
(whatever its own level), and the writer step writes every dequeued record. -/
theorem level_field_noninterference (l : Logger) (a b : Int)
    (now msg cf : String) (ln : Int) (s : WriterState) (t : Int) (r : Record) :
    (({ l with Level := a } : Logger).Debugf now msg cf ln).RecordCh
      = (({ l with Level := b } : Logger).Debugf now msg cf ln).RecordCh
  ∧ (({ l with Level := a } : Logger).Infof now msg cf ln).RecordCh
      = (({ l with Level := b } : Logger).Infof now msg cf ln).RecordCh
  ∧ (({ l with Level := a } : Logger).Warnf now msg cf ln).RecordCh
      = (({ l with Level := b } : Logger).Warnf now msg cf ln).RecordCh
  ∧ (({ l with Level := a } : Logger).Errorf now msg cf ln).RecordCh
      = (({ l with Level := b } : Logger).Errorf now msg cf ln).RecordCh
  ∧ (l.Debugf now msg cf ln).RecordCh
      = l.RecordCh ++ [{ RLevel := LevelDebug, RTime := now, RMsg := msg,
                         LineNum := ln, File := cf }]
  ∧ (l.Infof now msg cf ln).RecordCh
      = l.RecordCh ++ [{ RLevel := LevelInfo, RTime := now, RMsg := msg,
                         LineNum := ln, File := cf }]
  ∧ (l.Warnf now msg cf ln).RecordCh
      = l.RecordCh ++ [{ RLevel := LevelWarning, RTime := now, RMsg := msg,
                         LineNum := ln, File := cf }]
  ∧ (l.Errorf now msg cf ln).RecordCh
      = l.RecordCh ++ [{ RLevel := LevelError, RTime := now, RMsg := msg,
                         LineNum := ln, File := cf }]
  ∧ (writerStep s t r).1.written = s.written ++ [r] := by
  refine ⟨rfl, rfl, rfl, rfl, rfl, rfl, rfl, rfl, ?_⟩
  unfold writerStep
  split <;> rfl

/-- C9: the output path is always `<FileDir>/<FileName>_<suffix>.log`; the
suffix renders the expiry instant in the minute, hour or day layout for
granularities M, H, D, is empty for W, and is a function of the granularity
and the expiry timestamp alone. -/
theorem filePath_shape (l : Logger) :
    GetAbsoluteFilePath l
      = l.FileDir ++ "/" ++ l.FileName ++ "_" ++ GetFileSuffixName l ++ ".log"
  ∧ (l.When = "M" → GetFileSuffixName l = formatMinuteSuffix l.ExpiryTs)
  ∧ (l.When = "H" → GetFileSuffixName l = formatHourSuffix l.ExpiryTs)
  ∧ (l.When = "D" → GetFileSuffixName l = formatDaySuffix l.ExpiryTs)
  ∧ (l.When = "W" → GetFileSuffixName l = "")
  ∧ (∀ l2 : Logger, l.When = l2.When → l.ExpiryTs = l2.ExpiryTs →
      GetFileSuffixName l = GetFileSuffixName l2) := by
  refine ⟨rfl, ?_, ?_, ?_, ?_, ?_⟩
  · intro h; unfold GetFileSuffixName; rw [h, if_pos rfl]
  · intro h; unfold GetFileSuffixName
    rw [h, if_neg (by decide), if_pos rfl]
  · intro h; unfold GetFileSuffixName
    rw [h, if_neg (by decide), if_neg (by decide), if_pos rfl]
  · intro h; unfold GetFileSuffixName
    rw [h, if_neg (by decide), if_neg (by decide), if_neg (by decide)]
  · intro l2 h he; unfold GetFileSuffixName; rw [h, he]

/-- Witness for C9: the concrete day-granularity logger expiring at
2024-01-01 00:00:00 UTC renders the documented path. -/
theorem filePath_shape_witness :
    GetFileSuffixName lD = formatDaySuffix 1704067200
  ∧ GetAbsoluteFilePath lD = "/tmp/logs/app_2024-01-01.log" := by
  constructor
  · exact (filePath_shape lD).2.2.2.1 rfl
  · rw [(filePath_shape lD).1, (filePath_shape lD).2.2.2.1 rfl]
    decide

/-- Sanity evaluation of the day layout at 2024-01-01 00:00:00 UTC. -/
theorem formatDaySuffix_example : formatDaySuffix 1704067200 = "2024-01-01" := by
  decide

/-- Sanity evaluation of the minute layout at 2024-01-01 15:04:05 UTC. -/
theorem formatMinuteSuffix_example :
    formatMinuteSuffix 1704121445 = "2024-01-01_15-04" := by
  decide
